import Mathlib

/-!
# Renderer (vulkan_voxel): device selection, surface negotiation, lifecycle

A shallow embedding of `src/Renderer.cpp`.

* The answers of the graphics driver and of the windowing layer are explicit
  data: a `PhysicalDevice` carries what the driver reports for that handle, an
  `Env` carries the build option and the results of the creation calls.
* The member functions of `Renderer` are functions over that data and over the
  `Renderer` record; a range-for becomes a recursive `loop` over the list.
* `uint32_t` values are natural numbers, reduced modulo 2^32 where the code
  computes with them; `VK_NULL_HANDLE` is `none`.
* A member function that can throw returns an `Outcome`, which keeps the state
  of the object at the point of the throw.
* `QueueFamilyIndices` and `ErrorCheck` are declared in headers that are not
  part of `src/`; they are modelled from the spec and marked as such.
-/

namespace VulkanVoxel

/-! ## Vulkan constants used by `Renderer.cpp` (values of `vulkan_core.h`) -/

/-- `VK_SUCCESS`. -/
def VK_SUCCESS : Int := 0
/-- `VK_ERROR_EXTENSION_NOT_PRESENT`. -/
def VK_ERROR_EXTENSION_NOT_PRESENT : Int := -7
/-- `VK_QUEUE_GRAPHICS_BIT`. -/
def VK_QUEUE_GRAPHICS_BIT : Nat := 1
/-- `VK_FORMAT_UNDEFINED`. -/
def VK_FORMAT_UNDEFINED : Nat := 0
/-- `VK_FORMAT_B8G8R8A8_UNORM`. -/
def VK_FORMAT_B8G8R8A8_UNORM : Nat := 44
/-- `VK_COLOR_SPACE_SRGB_NONLINEAR_KHR`. -/
def VK_COLOR_SPACE_SRGB_NONLINEAR_KHR : Nat := 0
/-- `VK_PRESENT_MODE_IMMEDIATE_KHR`. -/
def VK_PRESENT_MODE_IMMEDIATE_KHR : Nat := 0
/-- `VK_PRESENT_MODE_MAILBOX_KHR`. -/
def VK_PRESENT_MODE_MAILBOX_KHR : Nat := 1
/-- `VK_PRESENT_MODE_FIFO_KHR`. -/
def VK_PRESENT_MODE_FIFO_KHR : Nat := 2
/-- `std::numeric_limits<uint32_t>::max()`. -/
def UINT32_MAX : Nat := 4294967295

/-! ## Data reported by the driver -/

/-- `VkQueueFamilyProperties`, together with the answer of
`vkGetPhysicalDeviceSurfaceSupportKHR` for this family and the renderer's surface. -/
structure QueueFamily where
  queueFlags : Nat
  queueCount : Nat
  presentSupport : Bool
  deriving DecidableEq, Repr

/-- `VkSurfaceFormatKHR`. -/
structure VkSurfaceFormatKHR where
  format : Nat
  colorSpace : Nat
  deriving DecidableEq, Repr

/-- `VkExtent2D`. -/
structure VkExtent2D where
  width : Nat
  height : Nat
  deriving DecidableEq, Repr

/-- The fields of `VkSurfaceCapabilitiesKHR` read by `Renderer.cpp`. -/
structure VkSurfaceCapabilitiesKHR where
  minImageCount : Nat
  maxImageCount : Nat
  currentExtent : VkExtent2D
  minImageExtent : VkExtent2D
  maxImageExtent : VkExtent2D
  deriving DecidableEq, Repr

/-- `SwapChainSupportDetails`. -/
structure SwapChainSupportDetails where
  capabilities : VkSurfaceCapabilitiesKHR
  formats : List VkSurfaceFormatKHR
  presentModes : List Nat
  deriving DecidableEq, Repr

/-- A non-null `VkPhysicalDevice` handle, with what the driver answers when the
handle is queried: `vkGetPhysicalDeviceQueueFamilyProperties`,
`vkEnumerateDeviceExtensionProperties`, and the three surface queries of
`QuerySwapchainSupport`. -/
structure PhysicalDevice where
  handle : Nat
  queueFamilies : List QueueFamily
  availableExtensions : List String
  capabilities : VkSurfaceCapabilitiesKHR
  formats : List VkSurfaceFormatKHR
  presentModes : List Nat
  deriving DecidableEq, Repr

/-! ## QueueFamilyIndices -/

/-- Modelled from the spec: the class `QueueFamilyIndices` (`QueueFamilyIndices.h`
is not under src/): "two optional integer indices - the queue family supporting
graphics command submission, and the one supporting presentation to the surface",
"complete only when both indices are set (they may coincide)". -/
structure QueueFamilyIndices where
  graphicsFamily : Option Nat
  presentFamily : Option Nat
  deriving DecidableEq, Repr

namespace QueueFamilyIndices

/-- The default-constructed indices: nothing set. -/
def empty : QueueFamilyIndices := ⟨none, none⟩

/-- `SetGraphicsFamily`. -/
def SetGraphicsFamily (indices : QueueFamilyIndices) (i : Nat) : QueueFamilyIndices :=
  { indices with graphicsFamily := some i }

/-- `SetPresentFamily`. -/
def SetPresentFamily (indices : QueueFamilyIndices) (i : Nat) : QueueFamilyIndices :=
  { indices with presentFamily := some i }

/-- `isComplete`: both indices are set. -/
def isComplete (indices : QueueFamilyIndices) : Bool :=
  indices.graphicsFamily.isSome && indices.presentFamily.isSome

end QueueFamilyIndices

/-! ## Device Selector -/

/-- The family has the graphics bit: `queueFlags & VK_QUEUE_GRAPHICS_BIT`. -/
def supportsGraphics (queueFamily : QueueFamily) : Bool :=
  queueFamily.queueFlags &&& VK_QUEUE_GRAPHICS_BIT != 0

/-- The body of the range-for of `Renderer::FindQueueFamilies`, up to its
completeness test: family `queueIndex` is recorded for each role it can serve. -/
def FindQueueFamilies.visit (queueFamily : QueueFamily) (queueIndex : Nat)
    (indices : QueueFamilyIndices) : QueueFamilyIndices :=
  let indices :=
    if queueFamily.queueCount > 0 ∧ supportsGraphics queueFamily = true then
      indices.SetGraphicsFamily queueIndex
    else indices
  if queueFamily.queueCount > 0 ∧ queueFamily.presentSupport = true then
    indices.SetPresentFamily queueIndex
  else indices

/-- The range-for of `Renderer::FindQueueFamilies`, from family `queueIndex` on:
it stops at the first family after which the indices are complete. -/
def FindQueueFamilies.loop :
    List QueueFamily → Nat → QueueFamilyIndices → QueueFamilyIndices
  | [], _, indices => indices
  | queueFamily :: rest, queueIndex, indices =>
    if (FindQueueFamilies.visit queueFamily queueIndex indices).isComplete = true then
      FindQueueFamilies.visit queueFamily queueIndex indices
    else
      FindQueueFamilies.loop rest (queueIndex + 1)
        (FindQueueFamilies.visit queueFamily queueIndex indices)

/-- `Renderer::FindQueueFamilies`. -/
def FindQueueFamilies (vkPhysicalDevice : PhysicalDevice) : QueueFamilyIndices :=
  FindQueueFamilies.loop vkPhysicalDevice.queueFamilies 0 QueueFamilyIndices.empty

/-- `Renderer::CheckDeviceExtensionSupport`: the required names are put in a
`std::set`, every available name is erased from it, and the set must end empty.
`deviceExtensions` is the member holding the required device extensions. -/
def CheckDeviceExtensionSupport (deviceExtensions : List String)
    (vkPhysicalDevice : PhysicalDevice) : Bool :=
  let requiredExtensions : Finset String := deviceExtensions.toFinset
  let requiredExtensions :=
    vkPhysicalDevice.availableExtensions.foldl (fun s extension => s.erase extension)
      requiredExtensions
  decide (requiredExtensions = ∅)

/-- `Renderer::QuerySwapchainSupport`. -/
def QuerySwapchainSupport (device : PhysicalDevice) : SwapChainSupportDetails :=
  { capabilities := device.capabilities
    formats := device.formats
    presentModes := device.presentModes }

/-- `Renderer::IsDeviceSuitable`. -/
def IsDeviceSuitable (deviceExtensions : List String) (vkPhysicalDevice : PhysicalDevice) :
    Bool :=
  let indices := FindQueueFamilies vkPhysicalDevice
  let extensionsSupported := CheckDeviceExtensionSupport deviceExtensions vkPhysicalDevice
  let swapChainSupported :=
    if extensionsSupported then
      let swapChainDetails := QuerySwapchainSupport vkPhysicalDevice
      !swapChainDetails.formats.isEmpty && !swapChainDetails.presentModes.isEmpty
    else false
  indices.isComplete && swapChainSupported

/-! ## Surface Negotiator -/

/-- `Renderer::ChooseSwapchainSurfaceFormat`.  `availableFormats[0]` on an empty
vector is undefined in C++; the embedding answers `none` there. -/
def ChooseSwapchainSurfaceFormat (availableFormats : List VkSurfaceFormatKHR) :
    Option VkSurfaceFormatKHR :=
  if availableFormats.length = 1 ∧
      availableFormats.head?.map (fun f => f.format) = some VK_FORMAT_UNDEFINED then
    some ⟨VK_FORMAT_B8G8R8A8_UNORM, VK_COLOR_SPACE_SRGB_NONLINEAR_KHR⟩
  else
    match availableFormats.find? (fun availableFormat =>
        availableFormat.format == VK_FORMAT_B8G8R8A8_UNORM &&
        availableFormat.colorSpace == VK_COLOR_SPACE_SRGB_NONLINEAR_KHR) with
    | some availableFormat => some availableFormat
    | none => availableFormats.head?

/-- The range-for of `Renderer::ChooseSwapchainPresentMode`, carrying `bestMode`. -/
def ChooseSwapchainPresentMode.loop : List Nat → Nat → Nat
  | [], bestMode => bestMode
  | availablePresentMode :: rest, bestMode =>
    if availablePresentMode = VK_PRESENT_MODE_MAILBOX_KHR then availablePresentMode
    else if availablePresentMode = VK_PRESENT_MODE_IMMEDIATE_KHR then
      ChooseSwapchainPresentMode.loop rest availablePresentMode
    else ChooseSwapchainPresentMode.loop rest bestMode

/-- `Renderer::ChooseSwapchainPresentMode`. -/
def ChooseSwapchainPresentMode (availablePresentModes : List Nat) : Nat :=
  ChooseSwapchainPresentMode.loop availablePresentModes VK_PRESENT_MODE_FIFO_KHR

/-- `static_cast<uint32_t>` of an `int`. -/
def toUInt32 (x : Int) : Nat := (x % 4294967296).toNat

/-- `Renderer::ChooseSwapchainExtent`; `windowWidth` and `windowHeight` are what
`window->GetWidth()` and `window->GetHeight()` return. -/
def ChooseSwapchainExtent (capabilities : VkSurfaceCapabilitiesKHR)
    (windowWidth windowHeight : Int) : VkExtent2D :=
  if capabilities.currentExtent.width ≠ UINT32_MAX then
    capabilities.currentExtent
  else
    let actualExtent : VkExtent2D := ⟨toUInt32 windowWidth, toUInt32 windowHeight⟩
    { width := max capabilities.minImageExtent.width
        (min capabilities.maxImageExtent.width actualExtent.width)
      height := max capabilities.minImageExtent.height
        (min capabilities.maxImageExtent.height actualExtent.height) }

/-- The number of swap chain images computed in `Renderer::CreateSwapchain`
(a `uint32_t`, so the sum wraps modulo 2^32). -/
def swapchainImageCount (capabilities : VkSurfaceCapabilitiesKHR) : Nat :=
  let imageCount := (capabilities.minImageCount + 1) % 4294967296
  if capabilities.maxImageCount > 0 ∧ imageCount > capabilities.maxImageCount then
    capabilities.maxImageCount
  else imageCount

/-! ## Context Builder and Teardown -/

/-- The member functions called by `InitVulkan` and `DeInitVulkan`. -/
inductive Call where
  | CreateInstance | SetupDebugCallbacks | CreateSurface | SetupPhysicalDevice
  | InitLogicalDevice | CreateSwapchain | GetSwapchainImages
  | DestroySwapchain | DeInitLogicalDevice | DestroySurface
  | DestroyDebugReportCallbackEXT | DestroyInstance
  deriving DecidableEq, Repr

/-- The driver-side objects the renderer owns. -/
inductive Resource where
  | vkInstance | debugHook | surface | logicalDevice | swapchain
  deriving DecidableEq, Repr

/-- The resource a teardown call destroys. -/
def Call.destroys : Call → Option Resource
  | .DestroySwapchain => some .swapchain
  | .DeInitLogicalDevice => some .logicalDevice
  | .DestroySurface => some .surface
  | .DestroyDebugReportCallbackEXT => some .debugHook
  | .DestroyInstance => some .vkInstance
  | _ => none

/-- The failures of construction: the `std::runtime_error`s thrown in
`Renderer.cpp` and the failures reported through `ErrorCheck`, under the names
the spec gives them. -/
inductive Error where
  /-- "more validation layers requested than available" -/
  | ValidationLayerUnavailable
  /-- `ErrorCheck(vkCreateInstance(...))` -/
  | InstanceCreationFailed
  /-- "failed to set up debug callback!" -/
  | DebugHookSetupFailed
  /-- "failed to create window surface!" -/
  | SurfaceCreationFailed
  /-- "failed to find GPUs with Vulkan support!" -/
  | NoDevicesFound
  /-- "failed to find a suitable GPU!" -/
  | NoSuitableDeviceFound
  /-- `ErrorCheck(vkCreateDevice(...))` -/
  | LogicalDeviceCreationFailed
  /-- `ErrorCheck(vkCreateSwapchainKHR(...))` -/
  | SwapchainCreationFailed
  /-- A step C++ leaves undefined: a query on `VK_NULL_HANDLE`, `[0]` of an empty vector. -/
  | Undefined
  deriving DecidableEq, Repr

/-- What the renderer is given by its surroundings: the build option, the
required device extensions, and the answers of the driver and of the window. -/
structure Env where
  /-- The macro of `BUILD_OPTIONS.h`: `none` when not defined, else whether its value is non-zero. -/
  BUILD_ENABLE_VULKAN_DEBUG : Option Bool
  /-- The member `deviceExtensions` (its declaration is not under src/). -/
  deviceExtensions : List String
  /-- Layer names of `vkEnumerateInstanceLayerProperties`. -/
  availableLayerProperties : List String
  /-- Result of `vkCreateInstance`. -/
  vkCreateInstance : Int
  /-- Whether `vkGetInstanceProcAddr` finds the named function. -/
  vkGetInstanceProcAddr : String → Bool
  /-- Result of `vkCreateDebugReportCallbackEXT`, when it is found. -/
  vkCreateDebugReportCallbackEXT : Int
  /-- Result of `glfwCreateWindowSurface`. -/
  glfwCreateWindowSurface : Int
  /-- The devices of `vkEnumeratePhysicalDevices`, in enumeration order. -/
  devices : List PhysicalDevice
  /-- Result of `vkCreateDevice`. -/
  vkCreateDevice : Int
  /-- Result of `vkCreateSwapchainKHR`. -/
  vkCreateSwapchainKHR : Int
  /-- The images of `vkGetSwapchainImagesKHR`. -/
  vkGetSwapchainImagesKHR : List Nat
  /-- `window->GetWidth()`. -/
  windowWidth : Int
  /-- `window->GetHeight()`. -/
  windowHeight : Int

/-- The fields of `VkSwapchainCreateInfoKHR` that `CreateSwapchain` computes. -/
structure VkSwapchainCreateInfoKHR where
  minImageCount : Nat
  imageFormat : Nat
  imageColorSpace : Nat
  imageExtent : VkExtent2D
  concurrentSharing : Bool
  presentMode : Nat
  deriving DecidableEq, Repr

/-- The `Renderer` object.  `physicalDevice`, `swapchainImages`,
`swapChainImageFormat` and `swapChainExtent` are its members (`none` is
`VK_NULL_HANDLE`); `calls` records the member functions entered so far, `live`
the driver objects created and not yet destroyed, and `swapchainCreateInfo`
what was handed to `vkCreateSwapchainKHR`. -/
structure Renderer where
  physicalDevice : Option PhysicalDevice
  swapchainImages : List Nat
  swapChainImageFormat : Nat
  swapChainExtent : VkExtent2D
  swapchainCreateInfo : Option VkSwapchainCreateInfoKHR
  calls : List Call
  live : List Resource
  deriving DecidableEq, Repr

namespace Renderer

/-- The object before `InitVulkan`: every handle is `VK_NULL_HANDLE`, nothing has run. -/
def initial : Renderer :=
  { physicalDevice := none
    swapchainImages := []
    swapChainImageFormat := VK_FORMAT_UNDEFINED
    swapChainExtent := ⟨0, 0⟩
    swapchainCreateInfo := none
    calls := []
    live := [] }

/-- Record that a member function is entered. -/
def enter (r : Renderer) (c : Call) : Renderer := { r with calls := r.calls ++ [c] }

/-- Record that the driver created an object. -/
def created (r : Renderer) (x : Resource) : Renderer := { r with live := r.live ++ [x] }

/-- Record that the driver destroyed an object. -/
def destroyed (r : Renderer) (x : Resource) : Renderer := { r with live := r.live.erase x }

end Renderer

/-- How a member function ends: it returns, or it throws; both leave the object
in some state. -/
inductive Outcome where
  | ok (r : Renderer)
  | threw (e : Error) (r : Renderer)
  deriving DecidableEq, Repr

namespace Outcome

/-- Run the next statement unless an exception is propagating. -/
def andThen (o : Outcome) (next : Renderer → Outcome) : Outcome :=
  match o with
  | ok r => next r
  | threw e r => threw e r

/-- The object as the outcome leaves it. -/
def state : Outcome → Renderer
  | ok r => r
  | threw _ r => r

/-- The exception, if one was thrown. -/
def error : Outcome → Option Error
  | ok _ => none
  | threw e _ => some e

end Outcome

/-- The member `validationLayers` of `Renderer.h`. -/
def validationLayers : List String := ["VK_LAYER_LUNARG_standard_validation"]

/-- Modelled from the spec: `ErrorCheck` (`Utilities.h` is not under src/): "any
failure aborts the remaining sequence and propagates a typed error identifying
the failed stage".  A result other than `VK_SUCCESS` throws the error of `stage`. -/
def ErrorCheck (stage : Error) (result : Int) (r : Renderer) : Outcome :=
  if result = VK_SUCCESS then .ok r else .threw stage r

/-- `Renderer::CheckAllValidationLayersSupported`. -/
def CheckAllValidationLayersSupported (env : Env) : Bool :=
  validationLayers.all fun layerName =>
    env.availableLayerProperties.any fun layerProperties => layerName == layerProperties

/-- `Renderer::CreateInstance`.  The layer check is under `#ifdef`. -/
def CreateInstance (env : Env) (r : Renderer) : Outcome :=
  let r := r.enter .CreateInstance
  if env.BUILD_ENABLE_VULKAN_DEBUG.isSome ∧ CheckAllValidationLayersSupported env = false then
    .threw .ValidationLayerUnavailable r
  else
    let r := if env.vkCreateInstance = VK_SUCCESS then r.created .vkInstance else r
    ErrorCheck .InstanceCreationFailed env.vkCreateInstance r

/-- `Renderer::CreateDebugReportCallbackEXT`: the result code. -/
def CreateDebugReportCallbackEXT (env : Env) : Int :=
  if env.vkGetInstanceProcAddr "vkCreateDebugReportCallbackEXT" = true then
    env.vkCreateDebugReportCallbackEXT
  else VK_ERROR_EXTENSION_NOT_PRESENT

/-- `Renderer::SetupDebugCallbacks`.  The body is under `#if`. -/
def SetupDebugCallbacks (env : Env) (r : Renderer) : Outcome :=
  let r := r.enter .SetupDebugCallbacks
  if env.BUILD_ENABLE_VULKAN_DEBUG = some true then
    if CreateDebugReportCallbackEXT env ≠ VK_SUCCESS then .threw .DebugHookSetupFailed r
    else .ok (r.created .debugHook)
  else .ok r

/-- `Renderer::CreateSurface`. -/
def CreateSurface (env : Env) (r : Renderer) : Outcome :=
  let r := r.enter .CreateSurface
  if env.glfwCreateWindowSurface ≠ VK_SUCCESS then .threw .SurfaceCreationFailed r
  else .ok (r.created .surface)

/-- The range-for of `Renderer::SetupPhysicalDevice`. -/
def SetupPhysicalDevice.loop (deviceExtensions : List String) :
    List PhysicalDevice → Renderer → Renderer
  | [], r => r
  | device :: rest, r =>
    if IsDeviceSuitable deviceExtensions device = true then
      { r with physicalDevice := some device }
    else SetupPhysicalDevice.loop deviceExtensions rest r

/-- `Renderer::SetupPhysicalDevice`. -/
def SetupPhysicalDevice (env : Env) (r : Renderer) : Outcome :=
  let r := r.enter .SetupPhysicalDevice
  let deviceCount := env.devices.length
  if deviceCount = 0 then .threw .NoDevicesFound r
  else
    let r := SetupPhysicalDevice.loop env.deviceExtensions env.devices r
    if r.physicalDevice = none then .threw .NoSuitableDeviceFound r
    else .ok r

/-- `Renderer::InitLogicalDevice`: the queue families of the selected device are
looked up, the device is created, the result goes through `ErrorCheck`.  The
contents of the create-info structures are not part of the embedding. -/
def InitLogicalDevice (env : Env) (r : Renderer) : Outcome :=
  let r := r.enter .InitLogicalDevice
  match r.physicalDevice with
  | none => .threw .Undefined r
  | some _ =>
    let r := if env.vkCreateDevice = VK_SUCCESS then r.created .logicalDevice else r
    ErrorCheck .LogicalDeviceCreationFailed env.vkCreateDevice r

/-- `Renderer::CreateSwapchain`. -/
def CreateSwapchain (env : Env) (r : Renderer) : Outcome :=
  let r := r.enter .CreateSwapchain
  match r.physicalDevice with
  | none => .threw .Undefined r
  | some physicalDevice =>
    let swapchainDetails := QuerySwapchainSupport physicalDevice
    match ChooseSwapchainSurfaceFormat swapchainDetails.formats with
    | none => .threw .Undefined r
    | some surfaceFormat =>
      let presentMode := ChooseSwapchainPresentMode swapchainDetails.presentModes
      let extent :=
        ChooseSwapchainExtent swapchainDetails.capabilities env.windowWidth env.windowHeight
      let imageCount := swapchainImageCount swapchainDetails.capabilities
      let indices := FindQueueFamilies physicalDevice
      let swapchainCreateInfo : VkSwapchainCreateInfoKHR :=
        { minImageCount := imageCount
          imageFormat := surfaceFormat.format
          imageColorSpace := surfaceFormat.colorSpace
          imageExtent := extent
          concurrentSharing := decide (indices.graphicsFamily ≠ indices.presentFamily)
          presentMode := presentMode }
      let r := { r with swapchainCreateInfo := some swapchainCreateInfo }
      let r := if env.vkCreateSwapchainKHR = VK_SUCCESS then r.created .swapchain else r
      (ErrorCheck .SwapchainCreationFailed env.vkCreateSwapchainKHR r).andThen fun r =>
        .ok { r with swapChainImageFormat := surfaceFormat.format, swapChainExtent := extent }

/-- `Renderer::GetSwapchainImages`. -/
def GetSwapchainImages (env : Env) (r : Renderer) : Outcome :=
  let r := r.enter .GetSwapchainImages
  .ok { r with swapchainImages := env.vkGetSwapchainImagesKHR }

/-- `Renderer::InitVulkan`. -/
def InitVulkan (env : Env) (r : Renderer) : Outcome :=
  (CreateInstance env r).andThen fun r =>
  (SetupDebugCallbacks env r).andThen fun r =>
  (CreateSurface env r).andThen fun r =>
  (SetupPhysicalDevice env r).andThen fun r =>
  (InitLogicalDevice env r).andThen fun r =>
  (CreateSwapchain env r).andThen fun r =>
  GetSwapchainImages env r

/-- `Renderer::DestroySwapchain`. -/
def DestroySwapchain (r : Renderer) : Renderer :=
  (r.enter .DestroySwapchain).destroyed .swapchain

/-- `Renderer::DeInitLogicalDevice`. -/
def DeInitLogicalDevice (r : Renderer) : Renderer :=
  (r.enter .DeInitLogicalDevice).destroyed .logicalDevice

/-- `Renderer::DestroySurface`. -/
def DestroySurface (r : Renderer) : Renderer :=
  (r.enter .DestroySurface).destroyed .surface

/-- `Renderer::DestroyDebugReportCallbackEXT`: the driver is called only when
the function is found. -/
def DestroyDebugReportCallbackEXT (env : Env) (r : Renderer) : Renderer :=
  let r := r.enter .DestroyDebugReportCallbackEXT
  if env.vkGetInstanceProcAddr "vkDestroyDebugReportCallbackEXT" = true then
    r.destroyed .debugHook
  else r

/-- `Renderer::DestroyInstance`. -/
def DestroyInstance (r : Renderer) : Renderer :=
  (r.enter .DestroyInstance).destroyed .vkInstance

/-- `Renderer::DeInitVulkan`. -/
def DeInitVulkan (env : Env) (r : Renderer) : Renderer :=
  let r := DestroySwapchain r
  let r := DeInitLogicalDevice r
  let r := DestroySurface r
  let r := DestroyDebugReportCallbackEXT env r
  DestroyInstance r

/-- `Renderer::Renderer`: the constructor runs `InitVulkan` on the fresh object. -/
def Renderer.construct (env : Env) : Outcome :=
  InitVulkan env Renderer.initial

/-- `Renderer::~Renderer`. -/
def Renderer.destruct (env : Env) (r : Renderer) : Renderer :=
  DeInitVulkan env r

/-- The life of one `Renderer`: construction and, for an object whose
constructor returned, destruction.  When the constructor throws, C++ does not
run the destructor of the object under construction; what `Renderer.cpp` has
done by then is all that happens. -/
def Renderer.lifetime (env : Env) : Renderer :=
  match Renderer.construct env with
  | .ok r => Renderer.destruct env r
  | .threw _ r => r

/-- The calls `DeInitVulkan` adds to those already recorded in `r`. -/
def deinitCalls (env : Env) (r : Renderer) : List Call :=
  (DeInitVulkan env r).calls.drop r.calls.length

/-- What is known of indices built from a scan of `all`: an index that is set
names a family of `all` that has at least one queue and the capability. -/
def IndicesSound (all : List QueueFamily) (indices : QueueFamilyIndices) : Prop :=
  (∀ i, indices.graphicsFamily = some i →
    ∃ f, all[i]? = some f ∧ 0 < f.queueCount ∧ supportsGraphics f = true) ∧
  (∀ i, indices.presentFamily = some i →
    ∃ f, all[i]? = some f ∧ 0 < f.queueCount ∧ f.presentSupport = true)

/-! ## Concrete drivers, used to run the definitions -/

/-- Capabilities with a defined current extent and no upper bound on images. -/
def capsFixed : VkSurfaceCapabilitiesKHR :=
  { minImageCount := 2, maxImageCount := 0, currentExtent := ⟨800, 600⟩,
    minImageExtent := ⟨1, 1⟩, maxImageExtent := ⟨4096, 4096⟩ }

/-- A device without the swapchain extension. -/
def gpuNoExt : PhysicalDevice :=
  { handle := 1, queueFamilies := [⟨1, 1, true⟩], availableExtensions := [],
    capabilities := capsFixed, formats := [⟨44, 0⟩], presentModes := [2] }

/-- A device whose only family has graphics but cannot present. -/
def gpuNoPresent : PhysicalDevice :=
  { handle := 2, queueFamilies := [⟨1, 4, false⟩], availableExtensions := ["VK_KHR_swapchain"],
    capabilities := capsFixed, formats := [⟨44, 0⟩], presentModes := [2] }

/-- A suitable device: graphics on family 0, presentation on family 1. -/
def gpuA : PhysicalDevice :=
  { handle := 3, queueFamilies := [⟨1, 1, false⟩, ⟨4, 1, true⟩],
    availableExtensions := ["VK_KHR_maintenance1", "VK_KHR_swapchain"],
    capabilities := capsFixed, formats := [⟨37, 0⟩, ⟨44, 0⟩], presentModes := [2, 0, 1] }

/-- A second suitable device, one family for both roles. -/
def gpuB : PhysicalDevice :=
  { handle := 4, queueFamilies := [⟨3, 16, true⟩], availableExtensions := ["VK_KHR_swapchain"],
    capabilities := capsFixed, formats := [⟨44, 0⟩], presentModes := [2] }

/-- A debug build on a driver where every call succeeds. -/
def envOk : Env :=
  { BUILD_ENABLE_VULKAN_DEBUG := some true
    deviceExtensions := ["VK_KHR_swapchain"]
    availableLayerProperties := ["VK_LAYER_LUNARG_standard_validation"]
    vkCreateInstance := 0
    vkGetInstanceProcAddr := fun _ => true
    vkCreateDebugReportCallbackEXT := 0
    glfwCreateWindowSurface := 0
    devices := [gpuNoExt, gpuA, gpuB]
    vkCreateDevice := 0
    vkCreateSwapchainKHR := 0
    vkGetSwapchainImagesKHR := [101, 102, 103]
    windowWidth := 800
    windowHeight := 600 }

/-- The driver enumerates no device. -/
def envNoDevices : Env := { envOk with devices := [] }

/-- The driver enumerates devices, none suitable. -/
def envNoneSuitable : Env := { envOk with devices := [gpuNoExt, gpuNoPresent] }

/-- The driver rejects `vkCreateDevice` (`VK_ERROR_INITIALIZATION_FAILED`). -/
def envDeviceFails : Env := { envOk with vkCreateDevice := -3 }

/-- The format `ChooseSwapchainSurfaceFormat` prefers. -/
def preferredSurfaceFormat : VkSurfaceFormatKHR :=
  ⟨VK_FORMAT_B8G8R8A8_UNORM, VK_COLOR_SPACE_SRGB_NONLINEAR_KHR⟩

/-- Capabilities that follow the window (`currentExtent` is the sentinel), with
extent bounds 64 to 2048 on each axis. -/
def capsFollowWindow : VkSurfaceCapabilitiesKHR :=
  { minImageCount := 2, maxImageCount := 2, currentExtent := ⟨4294967295, 4294967295⟩,
    minImageExtent := ⟨64, 64⟩, maxImageExtent := ⟨2048, 2048⟩ }

/-- Capabilities whose `minImageCount` is the largest `uint32_t`, with no upper bound. -/
def capsWrap : VkSurfaceCapabilitiesKHR :=
  { minImageCount := 4294967295, maxImageCount := 0, currentExtent := ⟨800, 600⟩,
    minImageExtent := ⟨1, 1⟩, maxImageExtent := ⟨4096, 4096⟩ }

/-- A device whose only family has the graphics bit and can present, but
reports no queue (`queueCount` 0). -/
def gpuNoQueues : PhysicalDevice :=
  { handle := 5, queueFamilies := [⟨1, 0, true⟩], availableExtensions := ["VK_KHR_swapchain"],
    capabilities := capsFixed, formats := [⟨44, 0⟩], presentModes := [2] }

/-- The value `x` clamped into the range from `lo` to `hi`: `lo` when `x` is
below the range, `hi` when it is above, `x` itself otherwise. -/
def clampInto (lo hi x : Nat) : Nat :=
  if x < lo then lo else if hi < x then hi else x

/-- The states the object goes through in `DeInitVulkan`: on entry, and after
each of the five calls of its body; the last one is what `DeInitVulkan` returns. -/
def DeInitVulkan.states (env : Env) (r : Renderer) : List Renderer :=
  let r1 := DestroySwapchain r
  let r2 := DeInitLogicalDevice r1
  let r3 := DestroySurface r2
  let r4 := DestroyDebugReportCallbackEXT env r3
  let r5 := DestroyInstance r4
  [r, r1, r2, r3, r4, r5]

/-- The driver objects live in `before` and no longer live in `after`. -/
def Renderer.destroyedSince (before after : Renderer) : List Resource :=
  before.live.filter fun x => !after.live.contains x

/-- The driver objects destroyed along a sequence of states, in the order in
which they stop being live. -/
def destroyedAlong : List Renderer → List Resource
  | before :: after :: rest =>
    before.destroyedSince after ++ destroyedAlong (after :: rest)
  | _ => []

/-- The driver objects `DeInitVulkan` destroys, in the order in which its calls
destroy them. -/
def DeInitVulkan.destroyed (env : Env) (r : Renderer) : List Resource :=
  destroyedAlong (DeInitVulkan.states env r)

theorem foldl_erase_mem (avail : List String) (s : Finset String) (x : String) :
    x ∈ avail.foldl (fun s extension => s.erase extension) s ↔ x ∈ s ∧ x ∉ avail := by
  induction avail generalizing s with
  | nil => simp
  | cons a rest ih =>
    simp only [List.foldl_cons, ih, Finset.mem_erase, List.mem_cons, not_or]
    tauto

/-- The erase loop leaves the set empty exactly when every required extension
is among the available ones. -/
theorem CheckDeviceExtensionSupport_iff (deviceExtensions : List String) (d : PhysicalDevice) :
    CheckDeviceExtensionSupport deviceExtensions d = true ↔
      ∀ e ∈ deviceExtensions, e ∈ d.availableExtensions := by
  unfold CheckDeviceExtensionSupport
  simp only [decide_eq_true_eq, Finset.eq_empty_iff_forall_not_mem, foldl_erase_mem,
    List.mem_toFinset, not_and, not_not]

/-- `IsDeviceSuitable` is the conjunction of its three tests. -/
theorem IsDeviceSuitable_iff (deviceExtensions : List String) (d : PhysicalDevice) :
    IsDeviceSuitable deviceExtensions d = true ↔
      (FindQueueFamilies d).isComplete = true ∧
      (∀ e ∈ deviceExtensions, e ∈ d.availableExtensions) ∧
      d.formats ≠ [] ∧ d.presentModes ≠ [] := by
  rw [← CheckDeviceExtensionSupport_iff]
  unfold IsDeviceSuitable QuerySwapchainSupport
  cases h : CheckDeviceExtensionSupport deviceExtensions d <;>
    simp [List.isEmpty_iff]

theorem SetupPhysicalDevice_loop_none (exts : List String) (l : List PhysicalDevice)
    (r : Renderer) (h : ∀ x ∈ l, IsDeviceSuitable exts x = false) :
    SetupPhysicalDevice.loop exts l r = r := by
  induction l with
  | nil => rfl
  | cons a rest ih =>
    have ha := h a (List.mem_cons_self a rest)
    simp only [SetupPhysicalDevice.loop, ha, Bool.false_eq_true, if_false]
    exact ih fun x hx => h x (List.mem_cons_of_mem a hx)

theorem SetupPhysicalDevice_loop_first (exts : List String) (pre post : List PhysicalDevice)
    (d : PhysicalDevice) (r : Renderer)
    (hpre : ∀ x ∈ pre, IsDeviceSuitable exts x = false) (hd : IsDeviceSuitable exts d = true) :
    SetupPhysicalDevice.loop exts (pre ++ d :: post) r = { r with physicalDevice := some d } := by
  induction pre with
  | nil => simp [SetupPhysicalDevice.loop, hd]
  | cons a rest ih =>
    have ha := hpre a (List.mem_cons_self a rest)
    simp only [List.cons_append, SetupPhysicalDevice.loop, ha, Bool.false_eq_true, if_false]
    exact ih fun x hx => hpre x (List.mem_cons_of_mem a hx)

/-- A list with a suitable device splits at its first suitable device. -/
theorem exists_first_suitable (exts : List String) (l : List PhysicalDevice)
    (h : ∃ x ∈ l, IsDeviceSuitable exts x = true) :
    ∃ pre d post, l = pre ++ d :: post ∧ (∀ x ∈ pre, IsDeviceSuitable exts x = false) ∧
      IsDeviceSuitable exts d = true := by
  induction l with
  | nil => simp at h
  | cons a rest ih =>
    by_cases ha : IsDeviceSuitable exts a = true
    · exact ⟨[], a, rest, rfl, by simp, ha⟩
    · have hrest : ∃ x ∈ rest, IsDeviceSuitable exts x = true := by
        obtain ⟨x, hx, hs⟩ := h
        rcases List.mem_cons.mp hx with rfl | hx
        · exact absurd hs ha
        · exact ⟨x, hx, hs⟩
      obtain ⟨pre, d, post, hl, hpre, hd⟩ := ih hrest
      refine ⟨a :: pre, d, post, by simp [hl], ?_, hd⟩
      intro x hx
      rcases List.mem_cons.mp hx with rfl | hx
      · simpa using ha
      · exact hpre x hx

/-- When the enumeration splits at its first suitable device `d`,
`SetupPhysicalDevice` returns with `physicalDevice` set to `d`. -/
theorem SetupPhysicalDevice_of_split (env : Env) (r : Renderer)
    (pre post : List PhysicalDevice) (d : PhysicalDevice)
    (hl : env.devices = pre ++ d :: post)
    (hpre : ∀ x ∈ pre, IsDeviceSuitable env.deviceExtensions x = false)
    (hd : IsDeviceSuitable env.deviceExtensions d = true) :
    SetupPhysicalDevice env r =
      .ok { r.enter .SetupPhysicalDevice with physicalDevice := some d } := by
  unfold SetupPhysicalDevice
  simp only [hl, SetupPhysicalDevice_loop_first _ pre post d _ hpre hd]
  simp

/-- C1: whenever the enumerated devices contain a suitable device,
`SetupPhysicalDevice` returns with `physicalDevice` set to the first suitable
device in enumeration order (every device before it is unsuitable, whatever
comes after it), where a device is suitable exactly when `FindQueueFamilies`
gives complete indices for it, every required device extension is among its
available extensions, and its swapchain support has at least one surface
format and at least one present mode. -/
theorem SetupPhysicalDevice_selects_first_suitable (env : Env) (r : Renderer)
    (h : ∃ x ∈ env.devices, IsDeviceSuitable env.deviceExtensions x = true) :
    (∀ x, IsDeviceSuitable env.deviceExtensions x = true ↔
      ((FindQueueFamilies x).isComplete = true ∧
        (∀ e ∈ env.deviceExtensions, e ∈ x.availableExtensions) ∧
        (QuerySwapchainSupport x).formats ≠ [] ∧
        (QuerySwapchainSupport x).presentModes ≠ [])) ∧
    ∃ pre d post, env.devices = pre ++ d :: post ∧
      (∀ x ∈ pre, IsDeviceSuitable env.deviceExtensions x = false) ∧
      IsDeviceSuitable env.deviceExtensions d = true ∧
      SetupPhysicalDevice env r =
        .ok { r.enter .SetupPhysicalDevice with physicalDevice := some d } := by
  refine ⟨fun x => IsDeviceSuitable_iff _ x, ?_⟩
  obtain ⟨pre, d, post, hl, hpre, hd⟩ := exists_first_suitable _ _ h
  exact ⟨pre, d, post, hl, hpre, hd, SetupPhysicalDevice_of_split env r pre post d hl hpre hd⟩

/-- C1 at `envOk`, whose devices are an unsuitable one and then two suitable
ones: the hypothesis holds there and the theorem applies. -/
theorem SetupPhysicalDevice_selects_first_suitable_witness :
    (∃ x ∈ envOk.devices, IsDeviceSuitable envOk.deviceExtensions x = true) ∧
    ((∀ x, IsDeviceSuitable envOk.deviceExtensions x = true ↔
      ((FindQueueFamilies x).isComplete = true ∧
        (∀ e ∈ envOk.deviceExtensions, e ∈ x.availableExtensions) ∧
        (QuerySwapchainSupport x).formats ≠ [] ∧
        (QuerySwapchainSupport x).presentModes ≠ [])) ∧
    ∃ pre d post, envOk.devices = pre ++ d :: post ∧
      (∀ x ∈ pre, IsDeviceSuitable envOk.deviceExtensions x = false) ∧
      IsDeviceSuitable envOk.deviceExtensions d = true ∧
      SetupPhysicalDevice envOk Renderer.initial =
        .ok { Renderer.initial.enter .SetupPhysicalDevice with physicalDevice := some d }) :=
  ⟨⟨gpuB, by decide, by decide⟩,
    SetupPhysicalDevice_selects_first_suitable envOk Renderer.initial
      ⟨gpuB, by decide, by decide⟩⟩

/-- C2: `SetupPhysicalDevice` throws the no-devices error for an empty
enumeration; on an object whose `physicalDevice` is still `VK_NULL_HANDLE` it
throws the no-suitable-device error, a different one, for a non-empty
enumeration without a suitable device; and it returns without throwing when
some enumerated device is suitable. -/
theorem SetupPhysicalDevice_errors (env : Env) (r : Renderer) :
    (env.devices = [] → (SetupPhysicalDevice env r).error = some Error.NoDevicesFound) ∧
    (env.devices ≠ [] → r.physicalDevice = none →
      (∀ x ∈ env.devices, IsDeviceSuitable env.deviceExtensions x = false) →
      (SetupPhysicalDevice env r).error = some Error.NoSuitableDeviceFound) ∧
    ((∃ x ∈ env.devices, IsDeviceSuitable env.deviceExtensions x = true) →
      (SetupPhysicalDevice env r).error = none) ∧
    Error.NoDevicesFound ≠ Error.NoSuitableDeviceFound := by
  refine ⟨?_, ?_, ?_, by decide⟩
  · intro h
    simp [SetupPhysicalDevice, h, Outcome.error]
  · intro hne hnull hall
    have hlen : env.devices.length ≠ 0 := fun h0 => hne (List.length_eq_zero.mp h0)
    unfold SetupPhysicalDevice
    simp only [hlen, if_false, SetupPhysicalDevice_loop_none _ _ _ hall]
    simp [Renderer.enter, hnull, Outcome.error]
  · intro h
    obtain ⟨pre, d, post, hl, hpre, hd⟩ := exists_first_suitable _ _ h
    rw [SetupPhysicalDevice_of_split env r pre post d hl hpre hd]
    rfl

/-- C2 at three drivers, one for each case: no device, devices none of which is
suitable, and devices of which two are suitable. -/
theorem SetupPhysicalDevice_errors_witness :
    (SetupPhysicalDevice envNoDevices Renderer.initial).error = some Error.NoDevicesFound ∧
    (SetupPhysicalDevice envNoneSuitable Renderer.initial).error =
      some Error.NoSuitableDeviceFound ∧
    (SetupPhysicalDevice envOk Renderer.initial).error = none :=
  ⟨(SetupPhysicalDevice_errors envNoDevices Renderer.initial).1 rfl,
    (SetupPhysicalDevice_errors envNoneSuitable Renderer.initial).2.1
      (by decide) rfl (by decide),
    (SetupPhysicalDevice_errors envOk Renderer.initial).2.2.1 ⟨gpuA, by decide, by decide⟩⟩

theorem FindQueueFamilies_visit_sound (all : List QueueFamily) (f : QueueFamily) (k : Nat)
    (indices : QueueFamilyIndices) (hf : all[k]? = some f) (h : IndicesSound all indices) :
    IndicesSound all (FindQueueFamilies.visit f k indices) := by
  obtain ⟨hg, hp⟩ := h
  unfold FindQueueFamilies.visit IndicesSound
  by_cases c1 : f.queueCount > 0 ∧ supportsGraphics f = true <;>
    by_cases c2 : f.queueCount > 0 ∧ f.presentSupport = true
  · rw [if_pos c1, if_pos c2]
    exact ⟨fun i hi => by cases hi; exact ⟨f, hf, c1.1, c1.2⟩,
      fun i hi => by cases hi; exact ⟨f, hf, c2.1, c2.2⟩⟩
  · rw [if_pos c1, if_neg c2]
    exact ⟨fun i hi => by cases hi; exact ⟨f, hf, c1.1, c1.2⟩, fun i hi => hp i hi⟩
  · rw [if_neg c1, if_pos c2]
    exact ⟨fun i hi => hg i hi, fun i hi => by cases hi; exact ⟨f, hf, c2.1, c2.2⟩⟩
  · rw [if_neg c1, if_neg c2]
    exact ⟨hg, hp⟩

/-- The scan keeps the indices sound: with `seen` the families already visited,
the scan of `rest` only sets indices of families of `seen ++ rest`. -/
theorem FindQueueFamilies_loop_sound (seen rest : List QueueFamily)
    (indices : QueueFamilyIndices) (h : IndicesSound (seen ++ rest) indices) :
    IndicesSound (seen ++ rest) (FindQueueFamilies.loop rest seen.length indices) := by
  induction rest generalizing seen indices with
  | nil => simpa [FindQueueFamilies.loop] using h
  | cons f rest ih =>
    have hf : (seen ++ f :: rest)[seen.length]? = some f := by
      rw [List.getElem?_append_right (le_refl _)]; simp
    have key := FindQueueFamilies_visit_sound _ f seen.length indices hf h
    simp only [FindQueueFamilies.loop]
    split
    · exact key
    · have := ih (seen ++ [f]) _ (by simpa using key)
      simpa using this

/-- The indices `FindQueueFamilies` returns for a device are sound for its families. -/
theorem FindQueueFamilies_sound (d : PhysicalDevice) :
    IndicesSound d.queueFamilies (FindQueueFamilies d) := by
  have h := FindQueueFamilies_loop_sound [] d.queueFamilies QueueFamilyIndices.empty
    (by unfold IndicesSound; exact ⟨fun i hi => by simp [QueueFamilyIndices.empty] at hi,
      fun i hi => by simp [QueueFamilyIndices.empty] at hi⟩)
  simpa [FindQueueFamilies] using h

/-- C3: for every device, if none of its queue families supports graphics, or
none supports presentation to the surface, the indices `FindQueueFamilies`
returns are not complete; and a graphics (present) index that is set in the
result is the position in the device's family list of a family that supports
graphics (presentation). -/
theorem FindQueueFamilies_no_invented_index (d : PhysicalDevice) :
    (((∀ f ∈ d.queueFamilies, supportsGraphics f = false) ∨
        (∀ f ∈ d.queueFamilies, f.presentSupport = false)) →
      (FindQueueFamilies d).isComplete = false) ∧
    (∀ i, (FindQueueFamilies d).graphicsFamily = some i →
      ∃ f, d.queueFamilies[i]? = some f ∧ supportsGraphics f = true) ∧
    (∀ i, (FindQueueFamilies d).presentFamily = some i →
      ∃ f, d.queueFamilies[i]? = some f ∧ f.presentSupport = true) := by
  obtain ⟨hg, hp⟩ := FindQueueFamilies_sound d
  refine ⟨?_, ?_, ?_⟩
  · intro hno
    cases hc : (FindQueueFamilies d).isComplete with
    | false => rfl
    | true =>
      exfalso
      simp only [QueueFamilyIndices.isComplete, Bool.and_eq_true, Option.isSome_iff_exists] at hc
      obtain ⟨⟨i, hi⟩, ⟨j, hj⟩⟩ := hc
      obtain ⟨f, hf, -, hfg⟩ := hg i hi
      obtain ⟨g, hg2, -, hgp⟩ := hp j hj
      rcases hno with hno | hno
      · have := hno f (List.getElem?_mem hf)
        simp [hfg] at this
      · have := hno g (List.getElem?_mem hg2)
        simp [hgp] at this
  · intro i hi
    obtain ⟨f, hf, -, hfg⟩ := hg i hi
    exact ⟨f, hf, hfg⟩
  · intro i hi
    obtain ⟨f, hf, -, hfp⟩ := hp i hi
    exact ⟨f, hf, hfp⟩

/-- C3 at `gpuNoPresent`, where no family can present (the scan leaves the
indices incomplete), and at `gpuA`, where the scan sets graphics index 0 and
present index 1. -/
theorem FindQueueFamilies_no_invented_index_witness :
    (FindQueueFamilies gpuNoPresent).isComplete = false ∧
    (∃ f, gpuA.queueFamilies[0]? = some f ∧ supportsGraphics f = true) ∧
    (∃ f, gpuA.queueFamilies[1]? = some f ∧ f.presentSupport = true) :=
  ⟨(FindQueueFamilies_no_invented_index gpuNoPresent).1 (Or.inr (by decide)),
    (FindQueueFamilies_no_invented_index gpuA).2.1 0 (by decide),
    (FindQueueFamilies_no_invented_index gpuA).2.2 1 (by decide)⟩

/-! ### Surface Negotiator -/

theorem isPreferred_iff (x : VkSurfaceFormatKHR) :
    (x.format == VK_FORMAT_B8G8R8A8_UNORM &&
      x.colorSpace == VK_COLOR_SPACE_SRGB_NONLINEAR_KHR) = true ↔ x = preferredSurfaceFormat := by
  cases x with
  | mk f c => simp [preferredSurfaceFormat]

/-- The no-preference test holds exactly for a one-entry list whose entry has
the undefined format. -/
theorem noPreference_iff (l : List VkSurfaceFormatKHR) :
    (l.length = 1 ∧ l.head?.map (fun f => f.format) = some VK_FORMAT_UNDEFINED) ↔
      ∃ colorSpace, l = [⟨VK_FORMAT_UNDEFINED, colorSpace⟩] := by
  constructor
  · rintro ⟨hlen, hhead⟩
    match l, hlen, hhead with
    | [⟨f, c⟩], _, hhead =>
      simp only [List.head?_cons, Option.map_some', Option.some.injEq] at hhead
      exact ⟨c, by rw [hhead]⟩
  · rintro ⟨c, rfl⟩
    simp

/-- C4: on a non-empty list `ChooseSwapchainSurfaceFormat` returns a format,
which is the fixed default (B8G8R8A8_UNORM, SRGB_NONLINEAR) when the list is a
single entry of format UNDEFINED (any colour space); otherwise the
(B8G8R8A8_UNORM, SRGB_NONLINEAR) entry when the list has it, at any position;
otherwise the first entry of the list. -/
theorem ChooseSwapchainSurfaceFormat_spec (availableFormats : List VkSurfaceFormatKHR)
    (hne : availableFormats ≠ []) :
    ∃ chosen, ChooseSwapchainSurfaceFormat availableFormats = some chosen ∧
      ((∃ colorSpace, availableFormats = [⟨VK_FORMAT_UNDEFINED, colorSpace⟩]) →
        chosen = preferredSurfaceFormat) ∧
      ((¬ ∃ colorSpace, availableFormats = [⟨VK_FORMAT_UNDEFINED, colorSpace⟩]) →
        (preferredSurfaceFormat ∈ availableFormats → chosen = preferredSurfaceFormat) ∧
        (preferredSurfaceFormat ∉ availableFormats → some chosen = availableFormats.head?)) := by
  unfold ChooseSwapchainSurfaceFormat
  by_cases hno : ∃ colorSpace, availableFormats = [⟨VK_FORMAT_UNDEFINED, colorSpace⟩]
  · rw [if_pos ((noPreference_iff _).mpr hno)]
    exact ⟨_, rfl, fun _ => rfl, fun h => absurd hno h⟩
  · rw [if_neg (fun h => hno ((noPreference_iff _).mp h))]
    cases hfind : availableFormats.find? (fun availableFormat =>
        availableFormat.format == VK_FORMAT_B8G8R8A8_UNORM &&
        availableFormat.colorSpace == VK_COLOR_SPACE_SRGB_NONLINEAR_KHR) with
    | some x =>
      have hp := List.find?_some hfind
      have hx : x = preferredSurfaceFormat := (isPreferred_iff x).mp hp
      have hmem : x ∈ availableFormats := List.mem_of_find?_eq_some hfind
      refine ⟨x, rfl, fun h => absurd h hno, fun _ => ⟨fun _ => hx, fun h => ?_⟩⟩
      exact absurd (hx ▸ hmem) h
    | none =>
      obtain ⟨a, rest, rfl⟩ := List.exists_cons_of_ne_nil hne
      refine ⟨a, rfl, fun h => absurd h hno, fun _ => ⟨fun h => ?_, fun _ => rfl⟩⟩
      have := List.find?_eq_none.mp hfind _ h
      exact absurd ((isPreferred_iff _).mpr rfl) this

/-- C4 at the list (R8G8B8A8_UNORM, SRGB_NONLINEAR), (B8G8R8A8_UNORM,
SRGB_NONLINEAR): the list is not empty and the theorem applies. -/
theorem ChooseSwapchainSurfaceFormat_spec_witness :
    ([⟨37, 0⟩, ⟨44, 0⟩] : List VkSurfaceFormatKHR) ≠ [] ∧
    ∃ chosen, ChooseSwapchainSurfaceFormat [⟨37, 0⟩, ⟨44, 0⟩] = some chosen ∧
      ((∃ colorSpace, ([⟨37, 0⟩, ⟨44, 0⟩] : List VkSurfaceFormatKHR) =
          [⟨VK_FORMAT_UNDEFINED, colorSpace⟩]) →
        chosen = preferredSurfaceFormat) ∧
      ((¬ ∃ colorSpace, ([⟨37, 0⟩, ⟨44, 0⟩] : List VkSurfaceFormatKHR) =
          [⟨VK_FORMAT_UNDEFINED, colorSpace⟩]) →
        (preferredSurfaceFormat ∈ ([⟨37, 0⟩, ⟨44, 0⟩] : List VkSurfaceFormatKHR) →
          chosen = preferredSurfaceFormat) ∧
        (preferredSurfaceFormat ∉ ([⟨37, 0⟩, ⟨44, 0⟩] : List VkSurfaceFormatKHR) →
          some chosen = ([⟨37, 0⟩, ⟨44, 0⟩] : List VkSurfaceFormatKHR).head?)) :=
  ⟨by decide, ChooseSwapchainSurfaceFormat_spec [⟨37, 0⟩, ⟨44, 0⟩] (by decide)⟩

/-- The scan returns MAILBOX if the list has it, else IMMEDIATE if the list has
it, else the mode it started with. -/
theorem ChooseSwapchainPresentMode_loop_eq (l : List Nat) (bestMode : Nat) :
    ChooseSwapchainPresentMode.loop l bestMode =
      if VK_PRESENT_MODE_MAILBOX_KHR ∈ l then VK_PRESENT_MODE_MAILBOX_KHR
      else if VK_PRESENT_MODE_IMMEDIATE_KHR ∈ l then VK_PRESENT_MODE_IMMEDIATE_KHR
      else bestMode := by
  induction l generalizing bestMode with
  | nil => simp [ChooseSwapchainPresentMode.loop]
  | cons a rest ih =>
    unfold ChooseSwapchainPresentMode.loop
    by_cases h1 : a = VK_PRESENT_MODE_MAILBOX_KHR
    · simp [h1]
    · by_cases h2 : a = VK_PRESENT_MODE_IMMEDIATE_KHR
      · rw [if_neg h1, if_pos h2, ih]
        have hmi : VK_PRESENT_MODE_MAILBOX_KHR ≠ VK_PRESENT_MODE_IMMEDIATE_KHR := by decide
        simp [List.mem_cons, h2, hmi]
      · rw [if_neg h1, if_neg h2, ih]
        have hne1 : VK_PRESENT_MODE_MAILBOX_KHR ≠ a := fun h => h1 h.symm
        have hne2 : VK_PRESENT_MODE_IMMEDIATE_KHR ≠ a := fun h => h2 h.symm
        simp [List.mem_cons, hne1, hne2]

/-- C5: for every list of present modes, the empty one included,
`ChooseSwapchainPresentMode` returns MAILBOX if MAILBOX is in the list, else
IMMEDIATE if IMMEDIATE is in the list, else FIFO; and a reordering of the list
gives the same result. -/
theorem ChooseSwapchainPresentMode_spec (availablePresentModes : List Nat) :
    (VK_PRESENT_MODE_MAILBOX_KHR ∈ availablePresentModes →
      ChooseSwapchainPresentMode availablePresentModes = VK_PRESENT_MODE_MAILBOX_KHR) ∧
    (VK_PRESENT_MODE_MAILBOX_KHR ∉ availablePresentModes →
      VK_PRESENT_MODE_IMMEDIATE_KHR ∈ availablePresentModes →
      ChooseSwapchainPresentMode availablePresentModes = VK_PRESENT_MODE_IMMEDIATE_KHR) ∧
    (VK_PRESENT_MODE_MAILBOX_KHR ∉ availablePresentModes →
      VK_PRESENT_MODE_IMMEDIATE_KHR ∉ availablePresentModes →
      ChooseSwapchainPresentMode availablePresentModes = VK_PRESENT_MODE_FIFO_KHR) ∧
    (∀ reordered, availablePresentModes.Perm reordered →
      ChooseSwapchainPresentMode reordered =
        ChooseSwapchainPresentMode availablePresentModes) := by
  unfold ChooseSwapchainPresentMode
  refine ⟨?_, ?_, ?_, ?_⟩
  · intro h; rw [ChooseSwapchainPresentMode_loop_eq, if_pos h]
  · intro h1 h2; rw [ChooseSwapchainPresentMode_loop_eq, if_neg h1, if_pos h2]
  · intro h1 h2; rw [ChooseSwapchainPresentMode_loop_eq, if_neg h1, if_neg h2]
  · intro l hp
    rw [ChooseSwapchainPresentMode_loop_eq, ChooseSwapchainPresentMode_loop_eq]
    simp only [hp.mem_iff]

/-- C5 at the lists FIFO, IMMEDIATE, MAILBOX; FIFO, IMMEDIATE; and the empty
list; and at a reordering of the first. -/
theorem ChooseSwapchainPresentMode_spec_witness :
    ChooseSwapchainPresentMode [2, 0, 1] = VK_PRESENT_MODE_MAILBOX_KHR ∧
    ChooseSwapchainPresentMode [2, 0] = VK_PRESENT_MODE_IMMEDIATE_KHR ∧
    ChooseSwapchainPresentMode [] = VK_PRESENT_MODE_FIFO_KHR ∧
    ChooseSwapchainPresentMode [1, 0, 2] = ChooseSwapchainPresentMode [2, 0, 1] :=
  ⟨(ChooseSwapchainPresentMode_spec [2, 0, 1]).1 (by decide),
    (ChooseSwapchainPresentMode_spec [2, 0]).2.1 (by decide) (by decide),
    (ChooseSwapchainPresentMode_spec []).2.2.1 (by decide) (by decide),
    (ChooseSwapchainPresentMode_spec [2, 0, 1]).2.2.2 [1, 0, 2] (by decide)⟩

/-- The cast keeps a window size that fits 32 unsigned bits. -/
theorem toUInt32_of_fits (x : Int) (h0 : 0 ≤ x) (h1 : x < 4294967296) :
    (toUInt32 x : Int) = x := by
  unfold toUInt32
  rw [Int.emod_eq_of_lt h0 h1]
  exact Int.toNat_of_nonneg h0

/-- On a range whose lower end does not exceed its upper end, what the code
computes, `max lo (min hi x)`, is `x` clamped into the range. -/
theorem max_min_eq_clampInto (lo hi x : Nat) (h : lo ≤ hi) :
    max lo (min hi x) = clampInto lo hi x := by
  unfold clampInto
  split_ifs with h1 h2
  · rw [max_eq_left]
    exact le_trans (min_le_right _ _) (le_of_lt h1)
  · rw [min_eq_left (le_of_lt h2), max_eq_right h]
  · rw [min_eq_right (not_lt.mp h2), max_eq_right (not_lt.mp h1)]

/-- C6: for every surface capabilities and every window size,
`ChooseSwapchainExtent` returns the current extent verbatim, whatever the window
size, when the current extent is defined, which the code recognises by
`currentExtent.width` not being the sentinel 0xFFFFFFFF (for capabilities whose
width and height are the sentinel together, that is the current extent not
being the sentinel value); otherwise it returns the window's width and height,
as the unsigned 32-bit values the code casts them to, each clamped on its own
axis into the reported range from `minImageExtent` to `maxImageExtent`, so that
the result's width and height lie in that range. A window size that fits 32
unsigned bits is unchanged by the cast. -/
theorem ChooseSwapchainExtent_spec (capabilities : VkSurfaceCapabilitiesKHR)
    (windowWidth windowHeight : Int) :
    (capabilities.currentExtent.width ≠ UINT32_MAX →
      ∀ anyWidth anyHeight : Int,
        ChooseSwapchainExtent capabilities anyWidth anyHeight = capabilities.currentExtent) ∧
    ((capabilities.currentExtent.width = UINT32_MAX →
        capabilities.currentExtent.height = UINT32_MAX) →
      capabilities.currentExtent ≠ ⟨UINT32_MAX, UINT32_MAX⟩ →
      ∀ anyWidth anyHeight : Int,
        ChooseSwapchainExtent capabilities anyWidth anyHeight = capabilities.currentExtent) ∧
    (capabilities.currentExtent.width = UINT32_MAX →
      ChooseSwapchainExtent capabilities windowWidth windowHeight =
        ⟨max capabilities.minImageExtent.width
            (min capabilities.maxImageExtent.width (toUInt32 windowWidth)),
          max capabilities.minImageExtent.height
            (min capabilities.maxImageExtent.height (toUInt32 windowHeight))⟩ ∧
      (capabilities.minImageExtent.width ≤ capabilities.maxImageExtent.width →
        (ChooseSwapchainExtent capabilities windowWidth windowHeight).width =
            clampInto capabilities.minImageExtent.width capabilities.maxImageExtent.width
              (toUInt32 windowWidth) ∧
          capabilities.minImageExtent.width ≤
            (ChooseSwapchainExtent capabilities windowWidth windowHeight).width ∧
          (ChooseSwapchainExtent capabilities windowWidth windowHeight).width ≤
            capabilities.maxImageExtent.width) ∧
      (capabilities.minImageExtent.height ≤ capabilities.maxImageExtent.height →
        (ChooseSwapchainExtent capabilities windowWidth windowHeight).height =
            clampInto capabilities.minImageExtent.height capabilities.maxImageExtent.height
              (toUInt32 windowHeight) ∧
          capabilities.minImageExtent.height ≤
            (ChooseSwapchainExtent capabilities windowWidth windowHeight).height ∧
          (ChooseSwapchainExtent capabilities windowWidth windowHeight).height ≤
            capabilities.maxImageExtent.height)) ∧
    (0 ≤ windowWidth → windowWidth < 4294967296 → (toUInt32 windowWidth : Int) = windowWidth) ∧
    (0 ≤ windowHeight → windowHeight < 4294967296 →
      (toUInt32 windowHeight : Int) = windowHeight) := by
  have hdefined : capabilities.currentExtent.width ≠ UINT32_MAX →
      ∀ anyWidth anyHeight : Int,
        ChooseSwapchainExtent capabilities anyWidth anyHeight = capabilities.currentExtent := by
    intro h anyWidth anyHeight
    unfold ChooseSwapchainExtent
    rw [if_pos h]
  refine ⟨hdefined, ?_, ?_, toUInt32_of_fits _, toUInt32_of_fits _⟩
  · intro hboth hne
    apply hdefined
    intro hw
    apply hne
    have hh := hboth hw
    cases hce : capabilities.currentExtent with
    | mk w h =>
      rw [hce] at hw hh
      simp only at hw hh
      rw [hw, hh]
  · intro h
    have hval : ChooseSwapchainExtent capabilities windowWidth windowHeight =
        ⟨max capabilities.minImageExtent.width
            (min capabilities.maxImageExtent.width (toUInt32 windowWidth)),
          max capabilities.minImageExtent.height
            (min capabilities.maxImageExtent.height (toUInt32 windowHeight))⟩ := by
      unfold ChooseSwapchainExtent
      rw [if_neg (not_not.mpr h)]
    refine ⟨hval, ?_, ?_⟩
    · intro hle
      rw [hval]
      exact ⟨max_min_eq_clampInto _ _ _ hle, le_max_left _ _, max_le hle (min_le_left _ _)⟩
    · intro hle
      rw [hval]
      exact ⟨max_min_eq_clampInto _ _ _ hle, le_max_left _ _, max_le hle (min_le_left _ _)⟩

/-- C6 at `capsFixed`, whose current extent 800 x 600 is defined, and at
`capsFollowWindow` with a 4000 x 4000 window and bounds 64 to 2048 on each axis. -/
theorem ChooseSwapchainExtent_spec_witness :
    ChooseSwapchainExtent capsFixed 1024 768 = capsFixed.currentExtent ∧
    ChooseSwapchainExtent capsFollowWindow 4000 4000 = ⟨2048, 2048⟩ ∧
    ((ChooseSwapchainExtent capsFollowWindow 4000 4000).width =
        clampInto capsFollowWindow.minImageExtent.width capsFollowWindow.maxImageExtent.width
          (toUInt32 4000) ∧
      capsFollowWindow.minImageExtent.width ≤
        (ChooseSwapchainExtent capsFollowWindow 4000 4000).width ∧
      (ChooseSwapchainExtent capsFollowWindow 4000 4000).width ≤
        capsFollowWindow.maxImageExtent.width) ∧
    (toUInt32 4000 : Int) = 4000 :=
  ⟨(ChooseSwapchainExtent_spec capsFixed 0 0).1 (by decide) 1024 768,
    ((ChooseSwapchainExtent_spec capsFollowWindow 4000 4000).2.2.1 (by decide)).1,
    ((ChooseSwapchainExtent_spec capsFollowWindow 4000 4000).2.2.1 (by decide)).2.1 (by decide),
    (ChooseSwapchainExtent_spec capsFollowWindow 4000 4000).2.2.2.1 (by decide) (by decide)⟩

/-- C7, for a minimum below the largest `uint32_t`: the image count computed
in `CreateSwapchain` is `minImageCount + 1` when `maxImageCount` is 0, and the
smaller of `minImageCount + 1` and `maxImageCount` when `maxImageCount` is not 0. -/
theorem swapchainImageCount_spec (capabilities : VkSurfaceCapabilitiesKHR)
    (hmin : capabilities.minImageCount < UINT32_MAX) :
    (capabilities.maxImageCount = 0 →
      swapchainImageCount capabilities = capabilities.minImageCount + 1) ∧
    (capabilities.maxImageCount ≠ 0 →
      swapchainImageCount capabilities =
        min (capabilities.minImageCount + 1) capabilities.maxImageCount) := by
  have hmod : (capabilities.minImageCount + 1) % 4294967296 = capabilities.minImageCount + 1 := by
    apply Nat.mod_eq_of_lt
    unfold UINT32_MAX at hmin
    omega
  unfold swapchainImageCount
  simp only [hmod]
  constructor
  · intro h0
    simp [h0]
  · intro hne
    have hpos : capabilities.maxImageCount > 0 := Nat.pos_of_ne_zero hne
    by_cases hgt : capabilities.minImageCount + 1 > capabilities.maxImageCount
    · rw [if_pos ⟨hpos, hgt⟩]
      exact (min_eq_right (le_of_lt hgt)).symm
    · rw [if_neg (fun h => hgt h.2)]
      exact (min_eq_left (not_lt.mp hgt)).symm

/-- C7 as stated fails: with `minImageCount` 4294967295 and `maxImageCount` 0
the 32-bit sum wraps and the code computes image count 0, not
`minImageCount + 1`. -/
theorem swapchainImageCount_wraps :
    capsWrap.maxImageCount = 0 ∧
    swapchainImageCount capsWrap = 0 ∧
    swapchainImageCount capsWrap ≠ capsWrap.minImageCount + 1 := by
  decide

/-- C7 (amended) at `capsFixed` (minimum 2, unbounded: 3 images) and at
`capsFollowWindow` (minimum 2, maximum 2: 2 images). -/
theorem swapchainImageCount_spec_witness :
    capsFixed.minImageCount < UINT32_MAX ∧
    swapchainImageCount capsFixed = capsFixed.minImageCount + 1 ∧
    swapchainImageCount capsFollowWindow =
      min (capsFollowWindow.minImageCount + 1) capsFollowWindow.maxImageCount :=
  ⟨by decide, (swapchainImageCount_spec capsFixed (by decide)).1 (by decide),
    (swapchainImageCount_spec capsFollowWindow (by decide)).2 (by decide)⟩

/-! ### Context Builder and Teardown -/

theorem Outcome.andThen_eq_threw {o : Outcome} {next : Renderer → Outcome} {e : Error}
    {r : Renderer} (h : o.andThen next = .threw e r) :
    o = .threw e r ∨ ∃ r1, o = .ok r1 ∧ next r1 = .threw e r := by
  cases o with
  | ok r1 => exact Or.inr ⟨r1, rfl, h⟩
  | threw e1 r1 => exact Or.inl h

theorem CreateInstance_ok {env : Env} {r r1 : Renderer} (h : CreateInstance env r = .ok r1) :
    r1.calls = r.calls ++ [.CreateInstance] ∧ r1.live = r.live ++ [.vkInstance] := by
  simp only [CreateInstance, ErrorCheck] at h
  split_ifs at h
  cases h
  simp [Renderer.enter, Renderer.created]

theorem CreateInstance_threw {env : Env} {r r1 : Renderer} {e : Error}
    (h : CreateInstance env r = .threw e r1) :
    r1.calls = r.calls ++ [.CreateInstance] ∧ r1.live = r.live ∧
      (e = .ValidationLayerUnavailable ∨ e = .InstanceCreationFailed) := by
  simp only [CreateInstance, ErrorCheck] at h
  split_ifs at h <;> cases h <;> simp [Renderer.enter]

theorem SetupDebugCallbacks_ok {env : Env} {r r1 : Renderer}
    (h : SetupDebugCallbacks env r = .ok r1) :
    r1.calls = r.calls ++ [.SetupDebugCallbacks] ∧
      r1.live = r.live ++
        (if env.BUILD_ENABLE_VULKAN_DEBUG = some true then [.debugHook] else []) := by
  simp only [SetupDebugCallbacks] at h
  split_ifs at h with h1 h2 <;> cases h <;> simp [Renderer.enter, Renderer.created, h1]

theorem SetupDebugCallbacks_threw {env : Env} {r r1 : Renderer} {e : Error}
    (h : SetupDebugCallbacks env r = .threw e r1) :
    r1.calls = r.calls ++ [.SetupDebugCallbacks] ∧ r1.live = r.live ∧
      e = .DebugHookSetupFailed := by
  simp only [SetupDebugCallbacks] at h
  split_ifs at h
  cases h
  simp [Renderer.enter]

theorem CreateSurface_ok {env : Env} {r r1 : Renderer} (h : CreateSurface env r = .ok r1) :
    r1.calls = r.calls ++ [.CreateSurface] ∧ r1.live = r.live ++ [.surface] := by
  simp only [CreateSurface] at h
  split_ifs at h
  cases h
  simp [Renderer.enter, Renderer.created]

theorem CreateSurface_threw {env : Env} {r r1 : Renderer} {e : Error}
    (h : CreateSurface env r = .threw e r1) :
    r1.calls = r.calls ++ [.CreateSurface] ∧ r1.live = r.live ∧
      e = .SurfaceCreationFailed := by
  simp only [CreateSurface] at h
  split_ifs at h
  cases h
  simp [Renderer.enter]

/-- In the constructor, `SetupPhysicalDevice` is reached with `physicalDevice`
still `VK_NULL_HANDLE`: the three stages before it do not assign it. -/
theorem physicalDevice_null_before_selection {env : Env} {r1 r2 r3 : Renderer}
    (h1 : CreateInstance env Renderer.initial = .ok r1)
    (h2 : SetupDebugCallbacks env r1 = .ok r2) (h3 : CreateSurface env r2 = .ok r3) :
    r3.physicalDevice = none := by
  simp only [CreateInstance, ErrorCheck] at h1
  split_ifs at h1
  cases h1
  simp only [SetupDebugCallbacks] at h2
  simp only [CreateSurface] at h3
  split_ifs at h3
  cases h3
  split_ifs at h2 <;> cases h2 <;> rfl

theorem SetupPhysicalDevice_loop_frame (exts : List String) (l : List PhysicalDevice)
    (r : Renderer) :
    (SetupPhysicalDevice.loop exts l r).calls = r.calls ∧
      (SetupPhysicalDevice.loop exts l r).live = r.live := by
  induction l with
  | nil => exact ⟨rfl, rfl⟩
  | cons a rest ih =>
    unfold SetupPhysicalDevice.loop
    split_ifs
    · exact ⟨rfl, rfl⟩
    · exact ih

theorem SetupPhysicalDevice_ok {env : Env} {r r1 : Renderer}
    (h : SetupPhysicalDevice env r = .ok r1) :
    r1.calls = r.calls ++ [.SetupPhysicalDevice] ∧ r1.live = r.live ∧
      r1.physicalDevice ≠ none := by
  have hf := SetupPhysicalDevice_loop_frame env.deviceExtensions env.devices
    (r.enter .SetupPhysicalDevice)
  simp only [SetupPhysicalDevice] at h
  split_ifs at h with h1 h2
  cases h
  exact ⟨hf.1, hf.2, h2⟩

theorem SetupPhysicalDevice_threw {env : Env} {r r1 : Renderer} {e : Error}
    (h : SetupPhysicalDevice env r = .threw e r1) :
    r1.calls = r.calls ++ [.SetupPhysicalDevice] ∧ r1.live = r.live ∧
      (e = .NoDevicesFound ∨ e = .NoSuitableDeviceFound) := by
  have hf := SetupPhysicalDevice_loop_frame env.deviceExtensions env.devices
    (r.enter .SetupPhysicalDevice)
  simp only [SetupPhysicalDevice] at h
  split_ifs at h with h1 h2
  · cases h
    simp [Renderer.enter]
  · cases h
    exact ⟨hf.1, hf.2, Or.inr rfl⟩

theorem InitLogicalDevice_threw {env : Env} {r r1 : Renderer} {e : Error}
    (h : InitLogicalDevice env r = .threw e r1) :
    r1.calls = r.calls ++ [.InitLogicalDevice] ∧ r1.live = r.live ∧
      (e = .Undefined ∨ e = .LogicalDeviceCreationFailed) ∧
      (r.physicalDevice ≠ none → e = .LogicalDeviceCreationFailed) := by
  simp only [InitLogicalDevice, ErrorCheck, Renderer.enter] at h
  split at h
  · rename_i hnone
    cases h
    simp only [true_and, true_or]
    intro hne
    exact absurd hnone hne
  · split_ifs at h
    cases h
    simp

theorem CreateSwapchain_threw {env : Env} {r r1 : Renderer} {e : Error}
    (h : CreateSwapchain env r = .threw e r1) :
    r1.calls = r.calls ++ [.CreateSwapchain] ∧ r1.live = r.live ∧
      (e = .Undefined ∨ e = .SwapchainCreationFailed) := by
  simp only [CreateSwapchain, ErrorCheck, Renderer.enter] at h
  split at h
  · cases h; simp
  · split at h
    · cases h; simp
    · split_ifs at h
      · simp only [Outcome.andThen] at h
        cases h
      · simp only [Outcome.andThen] at h
        cases h
        simp

theorem GetSwapchainImages_eq (env : Env) (r : Renderer) :
    GetSwapchainImages env r =
      .ok { r.enter .GetSwapchainImages with swapchainImages := env.vkGetSwapchainImagesKHR } :=
  rfl

/-- When `InitVulkan` throws the device-creation error, it has entered its
first five stages and no other member function, and the driver objects created
are the instance, the debug hook in a build with `BUILD_ENABLE_VULKAN_DEBUG`
non-zero, and the surface. -/
theorem InitVulkan_device_failure {env : Env} {r0 r : Renderer}
    (h : InitVulkan env r0 = .threw .LogicalDeviceCreationFailed r) :
    r.calls = r0.calls ++ [.CreateInstance, .SetupDebugCallbacks, .CreateSurface,
      .SetupPhysicalDevice, .InitLogicalDevice] ∧
    r.live = r0.live ++ ([.vkInstance] ++
      (if env.BUILD_ENABLE_VULKAN_DEBUG = some true then [.debugHook] else []) ++
      [.surface]) := by
  unfold InitVulkan at h
  rcases Outcome.andThen_eq_threw h with h1 | ⟨r1, h1, h⟩
  · obtain ⟨-, -, he⟩ := CreateInstance_threw h1
    rcases he with he | he <;> cases he
  obtain ⟨c1, l1⟩ := CreateInstance_ok h1
  rcases Outcome.andThen_eq_threw h with h2 | ⟨r2, h2, h⟩
  · obtain ⟨-, -, he⟩ := SetupDebugCallbacks_threw h2
    cases he
  obtain ⟨c2, l2⟩ := SetupDebugCallbacks_ok h2
  rcases Outcome.andThen_eq_threw h with h3 | ⟨r3, h3, h⟩
  · obtain ⟨-, -, he⟩ := CreateSurface_threw h3
    cases he
  obtain ⟨c3, l3⟩ := CreateSurface_ok h3
  rcases Outcome.andThen_eq_threw h with h4 | ⟨r4, h4, h⟩
  · obtain ⟨-, -, he⟩ := SetupPhysicalDevice_threw h4
    rcases he with he | he <;> cases he
  obtain ⟨c4, l4, -⟩ := SetupPhysicalDevice_ok h4
  rcases Outcome.andThen_eq_threw h with h5 | ⟨r5, h5, h⟩
  · obtain ⟨c5, l5, -⟩ := InitLogicalDevice_threw h5
    constructor
    · simp [c5, c4, c3, c2, c1]
    · simp [l5, l4, l3, l2, l1]
  rcases Outcome.andThen_eq_threw h with h6 | ⟨r6, h6, h⟩
  · obtain ⟨-, -, he⟩ := CreateSwapchain_threw h6
    rcases he with he | he <;> cases he
  rw [GetSwapchainImages_eq] at h
  cases h

/-- `DeInitVulkan` enters its five member functions in the order of its body. -/
theorem DeInitVulkan_calls (env : Env) (r : Renderer) :
    (DeInitVulkan env r).calls = r.calls ++ [.DestroySwapchain, .DeInitLogicalDevice,
      .DestroySurface, .DestroyDebugReportCallbackEXT, .DestroyInstance] := by
  unfold DeInitVulkan DestroyInstance DestroyDebugReportCallbackEXT DestroySurface
    DeInitLogicalDevice DestroySwapchain
  split_ifs <;> simp [Renderer.enter, Renderer.destroyed]

theorem deinitCalls_eq (env : Env) (r : Renderer) :
    deinitCalls env r = [.DestroySwapchain, .DeInitLogicalDevice,
      .DestroySurface, .DestroyDebugReportCallbackEXT, .DestroyInstance] := by
  unfold deinitCalls
  rw [DeInitVulkan_calls]
  simp

/-- C9, as the code has it: the destroy calls of `DeInitVulkan` are, in order,
`DestroySwapchain`, `DeInitLogicalDevice`, `DestroySurface`,
`DestroyDebugReportCallbackEXT`, `DestroyInstance`: swapchain, logical device,
surface, debug hook, instance. -/
theorem DeInitVulkan_order (env : Env) (r : Renderer) :
    deinitCalls env r = [.DestroySwapchain, .DeInitLogicalDevice, .DestroySurface,
      .DestroyDebugReportCallbackEXT, .DestroyInstance] ∧
    (deinitCalls env r).filterMap Call.destroys =
      [.swapchain, .logicalDevice, .surface, .debugHook, .vkInstance] := by
  rw [deinitCalls_eq]
  exact ⟨rfl, rfl⟩

/-- C9 as stated fails: on the renderer constructed at `envOk` the destroy calls
of `DeInitVulkan` do not come in the order swapchain, logical device, debug
hook, surface, instance; the surface is destroyed before the debug hook. -/
theorem DeInitVulkan_surface_before_debugHook :
    (deinitCalls envOk (Renderer.construct envOk).state).filterMap Call.destroys ≠
      [.swapchain, .logicalDevice, .debugHook, .surface, .vkInstance] := by
  decide

/-- C10, as the code has it: when construction of a `Renderer` fails at logical
device creation, no member function that destroys anything is called during
the life of that object, so no swapchain destruction is attempted, and no
swapchain creation either; and the instance and the surface (with the debug
hook in a build with `BUILD_ENABLE_VULKAN_DEBUG` non-zero) stay created and not
destroyed. -/
theorem Renderer_device_failure (env : Env)
    (h : (Renderer.construct env).error = some Error.LogicalDeviceCreationFailed) :
    (∀ c ∈ (Renderer.lifetime env).calls, c.destroys = none) ∧
    Call.DestroySwapchain ∉ (Renderer.lifetime env).calls ∧
    Call.CreateSwapchain ∉ (Renderer.lifetime env).calls ∧
    (Renderer.lifetime env).live = [.vkInstance] ++
      (if env.BUILD_ENABLE_VULKAN_DEBUG = some true then [.debugHook] else []) ++
      [.surface] := by
  unfold Renderer.lifetime
  cases hc : Renderer.construct env with
  | ok r => rw [hc] at h; cases h
  | threw e r =>
    rw [hc] at h
    cases h
    obtain ⟨hcalls, hlive⟩ := InitVulkan_device_failure hc
    simp only [Renderer.initial, List.nil_append] at hcalls hlive
    dsimp only
    rw [hcalls, hlive]
    exact ⟨by decide, by decide, by decide, rfl⟩

/-- C10 as stated fails: at `envDeviceFails` the instance, the debug hook and
the surface are created, `vkCreateDevice` is rejected and the constructor
throws; neither `DestroySurface` nor `DestroyInstance` is ever called, and the
surface and the instance stay undestroyed. -/
theorem Renderer_leaks_on_device_failure :
    (Renderer.construct envDeviceFails).error = some Error.LogicalDeviceCreationFailed ∧
    Call.DestroySurface ∉ (Renderer.lifetime envDeviceFails).calls ∧
    Call.DestroyInstance ∉ (Renderer.lifetime envDeviceFails).calls ∧
    Resource.surface ∈ (Renderer.lifetime envDeviceFails).live ∧
    Resource.vkInstance ∈ (Renderer.lifetime envDeviceFails).live := by
  decide

/-- C10 (amended) at `envDeviceFails`: construction fails there at logical
device creation and the theorem applies. -/
theorem Renderer_device_failure_witness :
    (Renderer.construct envDeviceFails).error = some Error.LogicalDeviceCreationFailed ∧
    Call.DestroySwapchain ∉ (Renderer.lifetime envDeviceFails).calls ∧
    (Renderer.lifetime envDeviceFails).live = [.vkInstance, .debugHook, .surface] :=
  ⟨by decide, (Renderer_device_failure envDeviceFails (by decide)).2.1,
    (Renderer_device_failure envDeviceFails (by decide)).2.2.2⟩

/-! ### Completeness of the queue family scan -/

/-- A visit never clears an index, and sets the index of each role the family
can serve with at least one queue. -/
theorem FindQueueFamilies_visit_isSome (f : QueueFamily) (k : Nat)
    (indices : QueueFamilyIndices) :
    (indices.graphicsFamily.isSome = true ∨ (0 < f.queueCount ∧ supportsGraphics f = true) →
      (FindQueueFamilies.visit f k indices).graphicsFamily.isSome = true) ∧
    (indices.presentFamily.isSome = true ∨ (0 < f.queueCount ∧ f.presentSupport = true) →
      (FindQueueFamilies.visit f k indices).presentFamily.isSome = true) := by
  unfold FindQueueFamilies.visit
  by_cases c1 : f.queueCount > 0 ∧ supportsGraphics f = true <;>
    by_cases c2 : f.queueCount > 0 ∧ f.presentSupport = true
  · rw [if_pos c1, if_pos c2]
    exact ⟨fun _ => rfl, fun _ => rfl⟩
  · rw [if_pos c1, if_neg c2]
    exact ⟨fun _ => rfl, fun h => h.resolve_right c2⟩
  · rw [if_neg c1, if_pos c2]
    exact ⟨fun h => h.resolve_right c1, fun _ => rfl⟩
  · rw [if_neg c1, if_neg c2]
    exact ⟨fun h => h.resolve_right c1, fun h => h.resolve_right c2⟩

/-- The scan ends with complete indices when each role is already set or can
be served, with at least one queue, by a family still to be visited. -/
theorem FindQueueFamilies_loop_complete (rest : List QueueFamily) (k : Nat)
    (indices : QueueFamilyIndices)
    (hg : indices.graphicsFamily.isSome = true ∨
      ∃ f ∈ rest, 0 < f.queueCount ∧ supportsGraphics f = true)
    (hp : indices.presentFamily.isSome = true ∨
      ∃ f ∈ rest, 0 < f.queueCount ∧ f.presentSupport = true) :
    (FindQueueFamilies.loop rest k indices).isComplete = true := by
  induction rest generalizing k indices with
  | nil =>
    have hg1 : indices.graphicsFamily.isSome = true := by
      rcases hg with h | ⟨f, hf, -⟩
      · exact h
      · cases hf
    have hp1 : indices.presentFamily.isSome = true := by
      rcases hp with h | ⟨f, hf, -⟩
      · exact h
      · cases hf
    simp [FindQueueFamilies.loop, QueueFamilyIndices.isComplete, hg1, hp1]
  | cons a rest ih =>
    obtain ⟨vg, vp⟩ := FindQueueFamilies_visit_isSome a k indices
    simp only [FindQueueFamilies.loop]
    split
    · assumption
    · apply ih
      · rcases hg with h | ⟨f, hf, hq⟩
        · exact Or.inl (vg (Or.inl h))
        · rcases List.mem_cons.mp hf with rfl | hf
          · exact Or.inl (vg (Or.inr hq))
          · exact Or.inr ⟨f, hf, hq⟩
      · rcases hp with h | ⟨f, hf, hq⟩
        · exact Or.inl (vp (Or.inl h))
        · rcases List.mem_cons.mp hf with rfl | hf
          · exact Or.inl (vp (Or.inr hq))
          · exact Or.inr ⟨f, hf, hq⟩

/-- C11, as the code has it: for every device, if some queue family with at
least one queue is graphics-capable and some queue family with at least one
queue reports present support for the surface (the same family or another),
`FindQueueFamilies` returns complete indices: the graphics index and the
present index are both set. -/
theorem FindQueueFamilies_complete (d : PhysicalDevice)
    (hg : ∃ f ∈ d.queueFamilies, 0 < f.queueCount ∧ supportsGraphics f = true)
    (hp : ∃ f ∈ d.queueFamilies, 0 < f.queueCount ∧ f.presentSupport = true) :
    (FindQueueFamilies d).isComplete = true ∧
    (FindQueueFamilies d).graphicsFamily.isSome = true ∧
    (FindQueueFamilies d).presentFamily.isSome = true := by
  have h : (FindQueueFamilies d).isComplete = true :=
    FindQueueFamilies_loop_complete d.queueFamilies 0 QueueFamilyIndices.empty
      (Or.inr hg) (Or.inr hp)
  refine ⟨h, ?_⟩
  simpa [QueueFamilyIndices.isComplete] using h

/-- C11 as stated fails: the only queue family of `gpuNoQueues` is
graphics-capable and reports present support, but has `queueCount` 0, which the
scan requires to be positive; the indices returned are not complete. -/
theorem FindQueueFamilies_skips_family_without_queues :
    (∃ f ∈ gpuNoQueues.queueFamilies, supportsGraphics f = true) ∧
    (∃ f ∈ gpuNoQueues.queueFamilies, f.presentSupport = true) ∧
    (FindQueueFamilies gpuNoQueues).isComplete = false ∧
    FindQueueFamilies gpuNoQueues = ⟨none, none⟩ :=
  ⟨⟨⟨1, 0, true⟩, by decide, by decide⟩, ⟨⟨1, 0, true⟩, by decide, by decide⟩,
    by decide, by decide⟩

/-- C11 (amended) at `gpuA`, where family 0 serves graphics and family 1
presentation, and at `gpuB`, where one family serves both. -/
theorem FindQueueFamilies_complete_witness :
    ((∃ f ∈ gpuA.queueFamilies, 0 < f.queueCount ∧ supportsGraphics f = true) ∧
      (∃ f ∈ gpuA.queueFamilies, 0 < f.queueCount ∧ f.presentSupport = true) ∧
      (FindQueueFamilies gpuA).isComplete = true) ∧
    ((∃ f ∈ gpuB.queueFamilies, 0 < f.queueCount ∧ supportsGraphics f = true) ∧
      (∃ f ∈ gpuB.queueFamilies, 0 < f.queueCount ∧ f.presentSupport = true) ∧
      (FindQueueFamilies gpuB).isComplete = true) :=
  ⟨⟨⟨⟨1, 1, false⟩, by decide, by decide⟩, ⟨⟨4, 1, true⟩, by decide, by decide⟩,
      (FindQueueFamilies_complete gpuA ⟨⟨1, 1, false⟩, by decide, by decide⟩
        ⟨⟨4, 1, true⟩, by decide, by decide⟩).1⟩,
    ⟨⟨⟨3, 16, true⟩, by decide, by decide⟩, ⟨⟨3, 16, true⟩, by decide, by decide⟩,
      (FindQueueFamilies_complete gpuB ⟨⟨3, 16, true⟩, by decide, by decide⟩
        ⟨⟨3, 16, true⟩, by decide, by decide⟩).1⟩⟩

end VulkanVoxel
